import Mathlib

/-!
Verification development for src/file_query_mcp.py.

The file shallowly embeds the File Catalog and Query Translation layer of
the server: `list_data_files` (lines 40-83), `list_file_schema`
(lines 85-172), `load_override_schema` (lines 174-260) and `query_files`
(lines 262-308).  External collaborators (the filesystem walk, the polars
readers, the duckdb session) are passed in as explicit parameters; Python
exceptions that can escape an operation are modelled with `PyResult`.
Python string operations used by the source (`str.split()`, `str.replace`,
`str.endswith`, `str.lower`, `"sep".join`) are modelled character-wise on
`List Char`; Python dict insertion (keep position on overwrite, append new
keys) is modelled by `dictInsert` on association lists.
-/

/-- Model of Python `str.startswith` on character lists: first argument is
the pattern, second the text. -/
def listStartsWith : List Char → List Char → Bool
  | [], _ => true
  | _ :: _, [] => false
  | p :: ps, c :: cs => p == c && listStartsWith ps cs

/-- Model of Python `str.endswith(suffix)`. -/
def pyEndsWith (s suffix : String) : Bool :=
  listStartsWith suffix.toList.reverse s.toList.reverse

/-- Helper for `pySplit`: scans the characters, accumulating the current
token reversed in `acc`. -/
def pySplitAux : List Char → List Char → List String
  | [], acc => if acc.isEmpty then [] else [String.mk acc.reverse]
  | c :: rest, acc =>
    if c.isWhitespace then
      if acc.isEmpty then pySplitAux rest []
      else String.mk acc.reverse :: pySplitAux rest []
    else pySplitAux rest (c :: acc)

/-- Model of Python `str.split()` with no argument: split on runs of
whitespace, discarding empty tokens. -/
def pySplit (s : String) : List String := pySplitAux s.toList []

/-- Helper for `pyReplace`: replaces every leftmost, non-overlapping
occurrence of `pat` by `rep`.  The `Nat` argument is a skip counter for the
characters of a match that have already been consumed, which keeps the
recursion structural in the scanned list. -/
def replAux (pat rep : List Char) : List Char → Nat → List Char
  | [], _ => []
  | _ :: rest, Nat.succ k => replAux pat rep rest k
  | c :: rest, 0 =>
    if !pat.isEmpty && listStartsWith pat (c :: rest) then
      rep ++ replAux pat rep rest (pat.length - 1)
    else
      c :: replAux pat rep rest 0

/-- Model of Python `s.replace(pat, rep)`: replace all leftmost,
non-overlapping occurrences of `pat` in `s` by `rep`. -/
def pyReplace (s pat rep : String) : String :=
  String.mk (replAux pat.toList rep.toList s.toList 0)

/-- Model of Python `sep.join(parts)`. -/
def pyJoin (sep : String) : List String → String
  | [] => ""
  | [x] => x
  | x :: xs => x ++ sep ++ pyJoin sep xs

/-- ASCII model of Python `str.lower` on one character. -/
def pyLowerChar (c : Char) : Char :=
  if 'A' ≤ c ∧ c ≤ 'Z' then Char.ofNat (c.toNat + 32) else c

/-- ASCII model of Python `str.lower`. -/
def pyLower (s : String) : String := String.mk (s.toList.map pyLowerChar)

/-- Python dict assignment `d[k] = v` on an insertion-ordered association
list: overwrite in place when the key exists, append otherwise. -/
def dictInsert {α : Type} (k : String) (v : α) : List (String × α) → List (String × α)
  | [] => [(k, v)]
  | (k2, v2) :: rest => if k2 = k then (k, v) :: rest else (k2, v2) :: dictInsert k v rest

/-- Python dict lookup `d[k]` / membership `k in d`. -/
def dictGet {α : Type} (k : String) : List (String × α) → Option α
  | [] => none
  | (k2, v) :: rest => if k2 = k then some v else dictGet k rest

/-- Python exceptions that the source can let escape an operation. -/
inductive PyErr where
  | nameError : PyErr
  | typeError : PyErr
deriving DecidableEq

/-- Result of running one public operation: either it returned a value or a
Python exception escaped the operation boundary. -/
inductive PyResult (α : Type) where
  | ok : α → PyResult α
  | raised : PyErr → PyResult α
deriving DecidableEq

namespace PyResult

def map {α β : Type} (f : α → β) : PyResult α → PyResult β
  | ok a => ok (f a)
  | raised e => raised e

def bind {α β : Type} : PyResult α → (α → PyResult β) → PyResult β
  | ok a, f => f a
  | raised e, _ => raised e

end PyResult

/-- One value of the `data_files.json` mapping: the dict
`{"path": ..., "table_name": ...}` built at lines 68-71 of the source. -/
structure FileEntry where
  path : String
  table_name : String
deriving DecidableEq

/-- The durable catalog document `data_files.json`: either the explicit
no-files marker `{"error": "No data files found"}` written at line 75, or
the file-name keyed mapping written at line 78. -/
inductive CatalogDoc where
  | marker : CatalogDoc
  | files : List (String × FileEntry) → CatalogDoc
deriving DecidableEq

/-- The extension filter of `list_data_files`, line 62 of the source:
`file.endswith(('.csv', '.json', '.xlsx', '.paraquet'))`.  Note the literal
`'.paraquet'` in the source. -/
def walkExtMatch (file : String) : Bool :=
  pyEndsWith file ".csv" || pyEndsWith file ".json" ||
    pyEndsWith file ".xlsx" || pyEndsWith file ".paraquet"

/-- The table name derived at lines 64-65 of the source:
`file.replace('.', '_').replace('-', '_')` with a leading underscore. -/
def tableNameOf (file : String) : String :=
  "_" ++ pyReplace (pyReplace file "." "_") "-" "_"

/-- Model of `os.path.join(root, file)` for the catalogued path, line 69. -/
def osJoin (root file : String) : String := root ++ "/" ++ file

/-- One iteration of the walk loop at lines 59-71: a walked `(root, file)`
pair is entered into the `data_files` dict when its extension matches. -/
def catStep (acc : List (String × FileEntry)) (rf : String × String) : List (String × FileEntry) :=
  if walkExtMatch rf.2 then
    dictInsert rf.2 (FileEntry.mk (osJoin rf.1 rf.2) (tableNameOf rf.2)) acc
  else acc

/-- The `data_files` dict built from the directory walk, lines 57-71.  The
walk is passed in as the flattened list of `(root, file)` pairs that
`os.walk` yields, in walk order. -/
def buildCatalog (walked : List (String × String)) : List (String × FileEntry) :=
  walked.foldl catStep []

/-- Observable outcome of `list_data_files`: the document written to
`data_files.json` and the returned string. -/
structure ListDataFilesResult where
  doc : CatalogDoc
  output : String
deriving DecidableEq

/-- Embedding of `list_data_files` (lines 40-83): build the catalog from
the walk, persist either the marker or the mapping (lines 73-78) and
return the newline-joined file names (lines 81-83). -/
def list_data_files (walked : List (String × String)) : ListDataFilesResult :=
  let data_files := buildCatalog walked
  { doc := if data_files = [] then CatalogDoc.marker else CatalogDoc.files data_files
    output := pyJoin "\n" (data_files.map Prod.fst) }

/-- Outcome of the rewrite-and-execute phase of `query_files`:
`missingSource msg` is the early return at line 296 (`msg` is returned to
the caller and no SQL is submitted); `executed sql` means `sql` was
submitted to the duckdb session at line 304 (the operation then returns the
rendered result or the error string of lines 306-308, both strings). -/
inductive QueryOutcome where
  | missingSource : String → QueryOutcome
  | executed : String → QueryOutcome
deriving DecidableEq

/-- The translation loop of `query_files`, lines 286-298.  `words0` is
`raw_query.split()` computed once from the original query (line 278);
`fs` models `os.path.exists`. -/
def rewriteLoop (fs : String → Bool) (words0 : List String) :
    List (String × FileEntry) → String → QueryOutcome
  | [], q => QueryOutcome.executed q
  | (file_name, e) :: rest, q =>
    if file_name ∈ words0 then
      rewriteLoop fs words0 rest (pyReplace q file_name e.table_name)
    else if e.path ∈ words0 then
      if fs e.path then
        rewriteLoop fs words0 rest (pyReplace q e.path e.table_name)
      else
        QueryOutcome.missingSource ("Error: File " ++ e.path ++ " does not exist.")
    else rewriteLoop fs words0 rest q

/-- Embedding of `query_files` (lines 262-308).  `catalogFile` is the
loaded `data_files.json` in mapping form, with `none` meaning the file is
absent: in that case the guard at line 281 leaves `data_files` unbound and
line 286 raises `NameError`. -/
def query_files (catalogFile : Option (List (String × FileEntry)))
    (fs : String → Bool) (raw_query : String) : PyResult QueryOutcome :=
  match catalogFile with
  | none => PyResult.raised PyErr.nameError
  | some data_files => PyResult.ok (rewriteLoop fs (pySplit raw_query) data_files raw_query)

/-- Outcome of one external polars read.  `ok desc` models a successful
`pl.read_*` call together with the description text generated from the
dataframe (the schema, statistics and preview f-string of lines 145-149 or
242-246, whose exact rendering is owned by the external engine); `err msg`
models the reader raising an exception rendered as `msg` by `str(e)`. -/
inductive ReadResult where
  | ok : String → ReadResult
  | err : String → ReadResult
deriving DecidableEq

/-- The reader dispatch suffix test of the `elif` chains at lines 129-136
and 227-236 of the source: `.csv`, `.json`, `.xlsx`, `.parquet` (correctly
spelled here, unlike the walk filter at line 62). -/
def readExtMatch (file : String) : Bool :=
  pyEndsWith file ".csv" || pyEndsWith file ".json" ||
    pyEndsWith file ".xlsx" || pyEndsWith file ".parquet"

/-- The diagnostic cache text built in the `except` block at lines 158-168:
the error message plus, best effort, the first 500 characters of the file
(`pv` models that inner `open`/`read`, `none` when it raises). -/
def readErrText (file msg : String) (pv : Option String) : String :=
  "Error reading " ++ file ++ ": " ++ msg ++ "\n" ++
    match pv with
    | some p =>
        "First 500 characters of the file:\n" ++ p ++
          "\n---\n to help with schema inference and override"
    | none => ""

/-- State threaded through the `list_file_schema` loop: the in-memory
`schema_descriptions` dict, the current content of the durable
`schema_descriptions.json` (`none` when the file does not exist), the paths
passed to the external reader so far, and the table names registered with
the duckdb session so far. -/
structure LfsState where
  dict : List (String × String)
  disk : Option (List (String × String))
  reads : List String
  regs : List String
deriving DecidableEq

/-- One iteration of the `list_file_schema` loop, lines 116-168.  Note
three source behaviours embedded faithfully: the not-found branch
(lines 118-119) `continue`s before the `json.dump` at line 156; the
unsupported-format branch (lines 138-139) writes under the literal key
`"file"` and also `continue`s before the dump; and a raising reader jumps
to the `except` block (lines 158-168), so the dump at line 156 inside the
`try` never runs on that iteration. -/
def lfsStep (data_files : List (String × FileEntry)) (reader : String → ReadResult)
    (preview : String → Option String) (st : LfsState) (file : String) : LfsState :=
  match dictGet file data_files with
  | none => { st with dict := dictInsert file ("File " ++ file ++ " not found.\n") st.dict }
  | some e =>
    if (dictGet file st.dict).isSome then
      { st with disk := some st.dict }
    else if readExtMatch file then
      match reader e.path with
      | ReadResult.ok desc =>
          let d2 := dictInsert file desc st.dict
          { dict := d2, disk := some d2,
            reads := st.reads ++ [e.path], regs := st.regs ++ [e.table_name] }
      | ReadResult.err msg =>
          { st with
            dict := dictInsert file (readErrText file msg (preview e.path)) st.dict,
            reads := st.reads ++ [e.path] }
    else
      { st with dict := dictInsert "file" ("Unsupported file format for " ++ file ++ ".\n") st.dict }

/-- The output compilation at line 171: join the descriptions of the
requested files that are present in the final dict. -/
def lfsOutput (dict : List (String × String)) (files : List String) : String :=
  pyJoin "\n" (files.filterMap (fun f => dictGet f dict))

/-- Embedding of `list_file_schema` (lines 85-172).  `catalogFile` is the
loaded `data_files.json` in mapping form, `none` meaning it is absent: the
guard at line 111 then leaves `data_files` unbound, so the membership test
at line 118 raises `NameError` as soon as the requested list is non-empty.
`diskCache` is the content of `schema_descriptions.json`, `none` when
absent (line 104 then starts from the empty dict). -/
def list_file_schema (catalogFile : Option (List (String × FileEntry)))
    (reader : String → ReadResult) (preview : String → Option String)
    (diskCache : Option (List (String × String)))
    (file_names_list : List String) : PyResult (String × LfsState) :=
  let schema_descriptions := diskCache.getD []
  match catalogFile with
  | some data_files =>
      let st := file_names_list.foldl (lfsStep data_files reader preview)
        { dict := schema_descriptions, disk := diskCache, reads := [], regs := [] }
      PyResult.ok (lfsOutput st.dict file_names_list, st)
  | none =>
      match file_names_list with
      | [] => PyResult.ok ("", { dict := schema_descriptions, disk := diskCache,
                                 reads := [], regs := [] })
      | _ :: _ => PyResult.raised PyErr.nameError

/-- The polars dtypes of the type-tag translation at lines 208-223. -/
inductive PlDtype where
  | int64 | float64 | utf8 | boolean | date | datetime
deriving DecidableEq

/-- The `elif` chain at lines 210-223 translating one type tag, matched on
its lowercase form via `dtype.lower()`. -/
def parseDtype (dtype : String) : Option PlDtype :=
  let d := pyLower dtype
  if d = "int" then some PlDtype.int64
  else if d = "float" then some PlDtype.float64
  else if d = "str" ∨ d = "string" then some PlDtype.utf8
  else if d = "bool" then some PlDtype.boolean
  else if d = "date" then some PlDtype.date
  else if d = "datetime" then some PlDtype.datetime
  else none

/-- Generic result used for internal early returns. -/
inductive Res (ε α : Type) where
  | ok : α → Res ε α
  | err : ε → Res ε α
deriving DecidableEq

/-- The loop at lines 208-223 building `schema_override`: translate each
column tag in insertion order, returning at the first unrecognized tag
with that `(column, tag)` pair. -/
def buildOverride : List (String × String) → Res (String × String) (List (String × PlDtype))
  | [] => Res.ok []
  | (col, dtype) :: rest =>
    match parseDtype dtype with
    | none => Res.err (col, dtype)
    | some t =>
      match buildOverride rest with
      | Res.err p => Res.err p
      | Res.ok m => Res.ok ((col, t) :: m)

/-- The `FileSchemaOverride` pydantic model, lines 27-36.  The
`schema_override_input` dict is carried in insertion order. -/
structure FileSchemaOverride where
  file_name : String
  schema_override_input : List (String × String)
deriving DecidableEq

/-- Success return text of `load_override_schema`, lines 255-257. -/
def losSuccessText (file desc : String) : String :=
  "Successfully loaded " ++ file ++ " with override schema.\n        Here is the schema:\n"
    ++ desc ++ "\n        "

/-- Observable outcome of `load_override_schema`: the returned string, the
paths read, the tables registered, and the resulting content of
`schema_descriptions.json`. -/
structure LosResult where
  output : String
  reads : List String
  regs : List String
  cacheDisk : Option (List (String × String))
deriving DecidableEq

/-- Embedding of `load_override_schema` (lines 174-260).  `catalogFile` is
the loaded `data_files.json` in mapping form, `none` meaning it is absent:
the guard at line 191 then leaves `data_files` unbound and the membership
test at line 201 raises `NameError`.  The override reader receives the
translated dtype mapping, modelling `pl.read_*(path, dtypes=...)`. -/
def load_override_schema (catalogFile : Option (List (String × FileEntry)))
    (diskCache : Option (List (String × String)))
    (reader : List (String × PlDtype) → String → ReadResult)
    (req : FileSchemaOverride) : PyResult LosResult :=
  match catalogFile with
  | none => PyResult.raised PyErr.nameError
  | some data_files =>
    let schema_descriptions := diskCache.getD []
    match dictGet req.file_name data_files with
    | none =>
        PyResult.ok { output := "Error: File " ++ req.file_name ++ " not found in loaded data files."
                      reads := [], regs := [], cacheDisk := diskCache }
    | some e =>
      match buildOverride req.schema_override_input with
      | Res.err p =>
          PyResult.ok { output := "Error: Unsupported data type " ++ p.2 ++ " for column " ++ p.1 ++ "."
                        reads := [], regs := [], cacheDisk := diskCache }
      | Res.ok ov =>
        if readExtMatch req.file_name then
          match reader ov e.path with
          | ReadResult.ok desc =>
              PyResult.ok { output := losSuccessText req.file_name desc
                            reads := [e.path], regs := [e.table_name]
                            cacheDisk := some (dictInsert req.file_name desc schema_descriptions) }
          | ReadResult.err msg =>
              PyResult.ok { output := "Error loading " ++ req.file_name ++ " with override schema: " ++ msg
                            reads := [e.path], regs := [], cacheDisk := diskCache }
        else
          PyResult.ok { output := "Error: Unsupported file format for " ++ req.file_name ++ "."
                        reads := [], regs := [], cacheDisk := diskCache }

/-- Modelled from the spec wording of claim C5: the table identifier is
obtained from the file name by replacing every '.' and '-' with '_' and
prepending a prefix character. -/
def specTableId (file : String) : String :=
  "_" ++ String.mk (file.toList.map (fun c => if c = '.' ∨ c = '-' then '_' else c))

/-- Modelled from the spec wording of claims C1/C9: a file is supported
when its name ends in one of the four supported extensions csv, json,
xlsx, parquet, matched case-sensitively as a literal suffix (a misspelling
of parquet is unsupported). -/
def specSupportedExt (file : String) : Bool :=
  pyEndsWith file ".csv" || pyEndsWith file ".json" ||
    pyEndsWith file ".xlsx" || pyEndsWith file ".parquet"

/-- Modelled from the spec wording of claims C3/C4 (section 4.4): the
per-entry rewrite step.  An entry whose `file_name` is a whitespace token
of the original query has all textual occurrences of the file name
replaced by its `table_id`; otherwise an entry whose existing `source_path`
is a token has all occurrences of the path replaced. -/
def c3SpecStep (words0 : List String) (fs : String → Bool) (q : String)
    (ent : String × FileEntry) : String :=
  if ent.1 ∈ words0 then pyReplace q ent.1 ent.2.table_name
  else if ent.2.path ∈ words0 ∧ fs ent.2.path then pyReplace q ent.2.path ent.2.table_name
  else q

/-- The fixed set of supported type tags named by claim C6 and the spec. -/
def supportedTags : List String :=
  ["int", "float", "str", "string", "bool", "date", "datetime"]

/-- The first column of an override request whose type tag the translation
chain at lines 210-223 rejects, in insertion order. -/
def firstUnsupportedTag : List (String × String) → Option (String × String)
  | [] => none
  | (col, dtype) :: rest =>
    match parseDtype dtype with
    | none => some (col, dtype)
    | some _ => firstUnsupportedTag rest

/-- Whether a query outcome is the `MissingSourceFile` early return of
line 296 (no SQL submitted). -/
def isMissing : QueryOutcome → Bool
  | QueryOutcome.missingSource _ => true
  | QueryOutcome.executed _ => false

/-- Whether a `query_files` run ended in the `MissingSourceFile` early
return. -/
def resultIsMissing : PyResult QueryOutcome → Bool
  | PyResult.ok o => isMissing o
  | PyResult.raised _ => false

theorem toList_mk (l : List Char) : (String.mk l).toList = l := rfl

theorem mem_dictInsert {α : Type} (k : String) (v : α) :
    ∀ (l : List (String × α)) (f : String) (e : α),
      (f, e) ∈ dictInsert k v l → (f = k ∧ e = v) ∨ (f, e) ∈ l := by
  intro l
  induction l with
  | nil =>
    intro f e h
    simp [dictInsert] at h
    exact Or.inl h
  | cons hd tl ih =>
    intro f e h
    obtain ⟨k2, v2⟩ := hd
    by_cases hk : k2 = k
    · simp [dictInsert, hk] at h
      rcases h with h | h
      · exact Or.inl h
      · exact Or.inr (List.mem_cons_of_mem _ h)
    · simp [dictInsert, hk] at h
      rcases h with h | h
      · exact Or.inr (by simp [h])
      · rcases ih f e h with h2 | h2
        · exact Or.inl h2
        · exact Or.inr (List.mem_cons_of_mem _ h2)

theorem dictInsert_ne_nil {α : Type} (k : String) (v : α) (l : List (String × α)) :
    dictInsert k v l ≠ [] := by
  cases l with
  | nil => simp [dictInsert]
  | cons hd tl =>
    obtain ⟨k2, v2⟩ := hd
    by_cases hk : k2 = k <;> simp [dictInsert, hk]

theorem replAux_single (p r : Char) :
    ∀ l : List Char, replAux [p] [r] l 0 = l.map (fun c => if c = p then r else c) := by
  intro l
  induction l with
  | nil => rfl
  | cons c rest ih =>
    by_cases h : p = c
    · subst h
      simp [replAux, listStartsWith, ih]
    · have h2 : ¬ c = p := fun hc => h hc.symm
      simp [replAux, listStartsWith, h, h2, ih]

theorem pyReplace_single (s : String) (p r : Char) :
    pyReplace s (String.mk [p]) (String.mk [r])
      = String.mk (s.toList.map (fun c => if c = p then r else c)) := by
  show String.mk (replAux [p] [r] s.toList 0) = _
  rw [replAux_single]

theorem dotDashMap :
    ((fun c => if c = '-' then '_' else c) ∘ fun c => if c = '.' then '_' else c)
      = fun c => if c = '.' ∨ c = '-' then '_' else c := by
  funext c
  by_cases h1 : c = '.'
  · subst h1
    decide
  · by_cases h2 : c = '-'
    · subst h2
      decide
    · simp [Function.comp, h1, h2]

theorem tableNameOf_eq_spec (file : String) : tableNameOf file = specTableId file := by
  have hdot : ("." : String) = String.mk ['.'] := rfl
  have hdash : ("-" : String) = String.mk ['-'] := rfl
  unfold tableNameOf specTableId
  rw [hdot, hdash, pyReplace_single, pyReplace_single, toList_mk, List.map_map, dotDashMap]

theorem buildCatalog_tables :
    ∀ (l : List (String × String)) (acc : List (String × FileEntry)),
      (∀ f e, (f, e) ∈ acc → e.table_name = tableNameOf f) →
      ∀ f e, (f, e) ∈ l.foldl catStep acc → e.table_name = tableNameOf f := by
  intro l
  induction l with
  | nil =>
    intro acc h f e hm
    exact h f e hm
  | cons hd tl ih =>
    intro acc h f e hm
    apply ih (catStep acc hd) _ f e hm
    intro f2 e2 hm2
    unfold catStep at hm2
    by_cases hs : walkExtMatch hd.2 = true
    · simp only [hs, if_true] at hm2
      rcases mem_dictInsert _ _ _ _ _ hm2 with ⟨h1, h2⟩ | h3
      · subst h1
        subst h2
        rfl
      · exact h f2 e2 h3
    · simp only [Bool.not_eq_true] at hs
      simp only [hs, Bool.false_eq_true, if_false] at hm2
      exact h f2 e2 hm2

theorem foldl_catStep_skip :
    ∀ (l : List (String × String)) (acc : List (String × FileEntry)),
      (∀ rf ∈ l, walkExtMatch rf.2 = false) → l.foldl catStep acc = acc := by
  intro l
  induction l with
  | nil => intro acc _; rfl
  | cons hd tl ih =>
    intro acc h
    have hh : walkExtMatch hd.2 = false := h hd (List.mem_cons_self _ _)
    have ht : ∀ rf ∈ tl, walkExtMatch rf.2 = false := fun rf hm => h rf (List.mem_cons_of_mem _ hm)
    simp only [List.foldl_cons]
    rw [show catStep acc hd = acc from by simp [catStep, hh]]
    exact ih acc ht

theorem foldl_catStep_ne_nil :
    ∀ (l : List (String × String)) (acc : List (String × FileEntry)),
      acc ≠ [] → l.foldl catStep acc ≠ [] := by
  intro l
  induction l with
  | nil => intro acc h; exact h
  | cons hd tl ih =>
    intro acc h
    simp only [List.foldl_cons]
    apply ih
    unfold catStep
    by_cases hs : walkExtMatch hd.2 = true
    · simp only [hs, if_true]
      exact dictInsert_ne_nil _ _ _
    · simp only [Bool.not_eq_true] at hs
      simp only [hs, Bool.false_eq_true, if_false]
      exact h

theorem foldl_catStep_mem_ne_nil :
    ∀ (l : List (String × String)) (acc : List (String × FileEntry)),
      (∃ rf ∈ l, walkExtMatch rf.2 = true) → l.foldl catStep acc ≠ [] := by
  intro l
  induction l with
  | nil =>
    intro acc h
    rcases h with ⟨rf, hm, _⟩
    exact absurd hm (List.not_mem_nil _)
  | cons hd tl ih =>
    intro acc h
    simp only [List.foldl_cons]
    rcases h with ⟨rf, hm, hs⟩
    rcases List.mem_cons.mp hm with h1 | h1
    · subst h1
      apply foldl_catStep_ne_nil
      simp [catStep, hs]
      exact dictInsert_ne_nil _ _ _
    · exact ih (catStep acc hd) ⟨rf, h1, hs⟩

theorem rewriteLoop_executed (fs : String → Bool) (words0 : List String) :
    ∀ (catalog : List (String × FileEntry)) (q q2 : String),
      rewriteLoop fs words0 catalog q = QueryOutcome.executed q2 →
      q2 = catalog.foldl (c3SpecStep words0 fs) q := by
  intro catalog
  induction catalog with
  | nil =>
    intro q q2 h
    simp [rewriteLoop] at h
    simp [h]
  | cons hd tl ih =>
    intro q q2 h
    obtain ⟨n, e⟩ := hd
    by_cases h1 : n ∈ words0
    · simp only [rewriteLoop, h1, if_true] at h
      simp only [List.foldl_cons, c3SpecStep, h1, if_true]
      exact ih _ _ h
    · by_cases h2 : e.path ∈ words0
      · by_cases h3 : fs e.path = true
        · simp only [rewriteLoop, h1, if_false, h2, if_true, h3] at h
          simp only [List.foldl_cons, c3SpecStep, h1, if_false, h2, h3, and_true, if_true]
          exact ih _ _ h
        · simp only [Bool.not_eq_true] at h3
          simp only [rewriteLoop, h1, if_false, h2, if_true, h3, Bool.false_eq_true] at h
          exact QueryOutcome.noConfusion h
      · simp only [rewriteLoop, h1, if_false, h2] at h
        have hstep : c3SpecStep words0 fs q (n, e) = q := by
          simp [c3SpecStep, h1, h2]
        simp only [List.foldl_cons, hstep]
        exact ih _ _ h

theorem rewriteLoop_missing (fs : String → Bool) (words0 : List String) :
    ∀ (catalog : List (String × FileEntry)) (q : String),
      (∃ n e, (n, e) ∈ catalog ∧ e.path ∈ words0 ∧ n ∉ words0 ∧ fs e.path = false) →
      isMissing (rewriteLoop fs words0 catalog q) = true := by
  intro catalog
  induction catalog with
  | nil =>
    intro q h
    rcases h with ⟨n, e, hm, _⟩
    exact absurd hm (List.not_mem_nil _)
  | cons hd tl ih =>
    intro q h
    rcases h with ⟨n, e, hm, hp, hn, hf⟩
    obtain ⟨n0, e0⟩ := hd
    have htl : (n, e) ∈ tl → ∃ n2 e2, (n2, e2) ∈ tl ∧ e2.path ∈ words0 ∧ n2 ∉ words0 ∧ fs e2.path = false :=
      fun hh => ⟨n, e, hh, hp, hn, hf⟩
    by_cases h1 : n0 ∈ words0
    · simp only [rewriteLoop, h1, if_true]
      apply ih
      apply htl
      rcases List.mem_cons.mp hm with hh | hh
      · exfalso
        have hne : n = n0 := congrArg Prod.fst hh
        exact hn (hne ▸ h1)
      · exact hh
    · by_cases h2 : e0.path ∈ words0
      · by_cases h3 : fs e0.path = true
        · simp only [rewriteLoop, h1, if_false, h2, if_true, h3]
          apply ih
          apply htl
          rcases List.mem_cons.mp hm with hh | hh
          · exfalso
            have he : e = e0 := congrArg Prod.snd hh
            rw [he, h3] at hf
            exact absurd hf (by decide)
          · exact hh
        · simp only [Bool.not_eq_true] at h3
          simp [rewriteLoop, h1, h2, h3, isMissing]
      · simp only [rewriteLoop, h1, if_false, h2]
        apply ih
        apply htl
        rcases List.mem_cons.mp hm with hh | hh
        · exfalso
          have he : e = e0 := congrArg Prod.snd hh
          exact h2 (he ▸ hp)
        · exact hh

theorem firstUnsupportedTag_parse :
    ∀ (l : List (String × String)) (col tag : String),
      firstUnsupportedTag l = some (col, tag) → parseDtype tag = none := by
  intro l
  induction l with
  | nil =>
    intro col tag h
    simp [firstUnsupportedTag] at h
  | cons hd tl ih =>
    intro col tag h
    obtain ⟨c0, t0⟩ := hd
    unfold firstUnsupportedTag at h
    cases hp : parseDtype t0 with
    | none =>
      rw [hp] at h
      simp at h
      rw [← h.2]
      exact hp
    | some t =>
      rw [hp] at h
      simp at h
      exact ih col tag h

theorem parseDtype_none_not_mem (tag : String) (h : parseDtype tag = none) :
    pyLower tag ∉ supportedTags := by
  intro hmem
  simp only [supportedTags, List.mem_cons, List.not_mem_nil, or_false] at hmem
  rcases hmem with h1 | h1 | h1 | h1 | h1 | h1 | h1 <;> simp [parseDtype, h1] at h

theorem buildOverride_first :
    ∀ (l : List (String × String)) (col tag : String),
      firstUnsupportedTag l = some (col, tag) → buildOverride l = Res.err (col, tag) := by
  intro l
  induction l with
  | nil =>
    intro col tag h
    simp [firstUnsupportedTag] at h
  | cons hd tl ih =>
    intro col tag h
    obtain ⟨c0, t0⟩ := hd
    unfold firstUnsupportedTag at h
    unfold buildOverride
    cases hp : parseDtype t0 with
    | none =>
      rw [hp] at h
      simp at h
      simp [h.1, h.2]
    | some t =>
      rw [hp] at h
      simp at h
      rw [ih col tag h]

/-- Claim C1 (code bug).  The claim says `list_data_files` catalogs exactly
the files whose name ends in csv, json, xlsx or parquet and that a
misspelling of parquet is not cataloged; the filter at line 62 of the
source instead matches the literal `'.paraquet'`, so over a walk yielding
`data.parquet` and `data.paraquet` only the misspelled file is cataloged. -/
theorem c1_extension_filter :
    list_data_files [("/d", "data.parquet"), ("/d", "data.paraquet")]
      = { doc := CatalogDoc.files
            [("data.paraquet", FileEntry.mk "/d/data.paraquet" "_data_paraquet")]
          output := "data.paraquet" } := by decide

/-- Claim C2 (code bug).  The claim says every public operation returns a
string for every state of the durable files, including an absent catalog
file; with `data_files.json` absent, `query_files`, `list_file_schema` (on
a non-empty request) and `load_override_schema` all leave `data_files`
unbound behind the `os.path.exists` guard and raise `NameError` past the
operation boundary. -/
theorem c2_totality :
    query_files none (fun _ => true) "SELECT 1" = PyResult.raised PyErr.nameError ∧
    list_file_schema none (fun _ => ReadResult.err "boom") (fun _ => none) none ["a.csv"]
      = PyResult.raised PyErr.nameError ∧
    load_override_schema none none (fun _ _ => ReadResult.ok "DESC")
        (FileSchemaOverride.mk "a.csv" [("c", "int")])
      = PyResult.raised PyErr.nameError :=
  ⟨rfl, rfl, rfl⟩

/-- Claim C3 (confirmed).  Whenever a `query_files` run reaches execution,
the SQL submitted to the engine is the original query folded over the
catalog entries in iteration order, where each entry whose `file_name`
occurs as a whitespace-delimited token of the original query replaces all
textual occurrences of that file name in the current query string with its
`table_id` (and, per the source, an entry whose existing `source_path` is
a token replaces the path likewise). -/
theorem c3_name_rewrite (catalog : List (String × FileEntry)) (fs : String → Bool)
    (q q2 : String)
    (h : query_files (some catalog) fs q = PyResult.ok (QueryOutcome.executed q2)) :
    q2 = catalog.foldl (c3SpecStep (pySplit q) fs) q := by
  have h2 : rewriteLoop fs (pySplit q) catalog q = QueryOutcome.executed q2 := by
    simpa [query_files] using h
  exact rewriteLoop_executed fs (pySplit q) catalog q q2 h2

/-- Witness for C3 at a concrete catalog and query. -/
theorem c3_name_rewrite_witness :
    query_files (some [("a.csv", FileEntry.mk "/d/a.csv" "_a_csv")]) (fun _ => true)
        "SELECT * FROM a.csv"
      = PyResult.ok (QueryOutcome.executed "SELECT * FROM _a_csv") ∧
    "SELECT * FROM _a_csv"
      = [("a.csv", FileEntry.mk "/d/a.csv" "_a_csv")].foldl
          (c3SpecStep (pySplit "SELECT * FROM a.csv") (fun _ => true)) "SELECT * FROM a.csv" :=
  ⟨by decide,
   c3_name_rewrite [("a.csv", FileEntry.mk "/d/a.csv" "_a_csv")] (fun _ => true)
     "SELECT * FROM a.csv" "SELECT * FROM _a_csv" (by decide)⟩

/-- Claim C5 (confirmed).  Every catalogued entry's table identifier is the
pure function of the file name described by the spec (replace every '.'
and '-' with '_', prepend a prefix character), and the spec's concrete
instances hold. -/
theorem c5_table_id :
    (∀ (walked : List (String × String)) (f : String) (e : FileEntry),
        (f, e) ∈ buildCatalog walked → e.table_name = specTableId f) ∧
    specTableId "a.csv" = "_a_csv" ∧ specTableId "b.json" = "_b_json" ∧
    tableNameOf "a.csv" = "_a_csv" ∧ tableNameOf "b.json" = "_b_json" := by
  refine ⟨?_, by decide, by decide, by decide, by decide⟩
  intro walked f e hm
  rw [← tableNameOf_eq_spec]
  exact buildCatalog_tables walked []
    (by intro f2 e2 h2; exact absurd h2 (List.not_mem_nil _)) f e hm

/-- Witness for C5 at a concrete walk. -/
theorem c5_table_id_witness :
    (("a.csv", FileEntry.mk "/d/a.csv" "_a_csv") ∈ buildCatalog [("/d", "a.csv")]) ∧
    (FileEntry.mk "/d/a.csv" "_a_csv").table_name = specTableId "a.csv" :=
  ⟨by decide,
   c5_table_id.1 [("/d", "a.csv")] "a.csv" (FileEntry.mk "/d/a.csv" "_a_csv") (by decide)⟩

/-- Characterization of the marker logic at lines 73-83 of the source in
terms of the source's own line-62 filter: a walk with zero filter-matching
files persists the explicit no-files marker (not an empty mapping) and
returns the empty string; a walk with at least one match persists the full
file-name keyed mapping.  Note the filter is `walkExtMatch` (the literal
`'.paraquet'` of line 62), not the spec's supported set
`specSupportedExt`: the two differ, which is what refutes claim C9. -/
theorem list_data_files_marker (walked : List (String × String)) :
    ((∀ rf ∈ walked, walkExtMatch rf.2 = false) →
        (list_data_files walked).doc = CatalogDoc.marker ∧
          (list_data_files walked).output = "") ∧
    ((∃ rf ∈ walked, walkExtMatch rf.2 = true) →
        buildCatalog walked ≠ [] ∧
          (list_data_files walked).doc = CatalogDoc.files (buildCatalog walked)) := by
  constructor
  · intro h
    have hb : buildCatalog walked = [] := foldl_catStep_skip walked [] h
    constructor
    · simp [list_data_files, hb]
    · simp [list_data_files, hb, pyJoin]
  · intro h
    have hb : buildCatalog walked ≠ [] := foldl_catStep_mem_ne_nil walked [] h
    exact ⟨hb, by simp [list_data_files, hb]⟩

/-- Concrete instances of `list_data_files_marker` at a walk with no
filter-matching file and a walk with one. -/
theorem list_data_files_marker_instances :
    (list_data_files [("/d", "notes.txt")]).doc = CatalogDoc.marker ∧
    (list_data_files [("/d", "notes.txt")]).output = "" ∧
    buildCatalog [("/d", "a.csv")] ≠ [] ∧
    (list_data_files [("/d", "a.csv")]).doc
      = CatalogDoc.files (buildCatalog [("/d", "a.csv")]) := by
  refine ⟨?_, ?_, ?_, ?_⟩
  · exact ((list_data_files_marker [("/d", "notes.txt")]).1 (by decide)).1
  · exact ((list_data_files_marker [("/d", "notes.txt")]).1 (by decide)).2
  · exact ((list_data_files_marker [("/d", "a.csv")]).2 ⟨("/d", "a.csv"), by decide, by decide⟩).1
  · exact ((list_data_files_marker [("/d", "a.csv")]).2 ⟨("/d", "a.csv"), by decide, by decide⟩).2

/-- Claim C9 (code bug).  The claim demands that a walk yielding zero
supported files — supported meaning the extensions csv, json, xlsx,
parquet, as the spec and claim C1 fix them — persists the no-files marker
and returns the empty string.  A walk yielding only `data.paraquet` has
zero supported files, yet the line-62 filter (the `'.paraquet'` slip
already recorded under C1) catalogs it, so the code persists the full
mapping and returns a non-empty listing instead of the marker. -/
theorem c9_paraquet_marker_divergence :
    specSupportedExt "data.paraquet" = false ∧
    list_data_files [("/d", "data.paraquet")]
      = { doc := CatalogDoc.files
            [("data.paraquet", FileEntry.mk "/d/data.paraquet" "_data_paraquet")]
          output := "data.paraquet" } := by decide

/-- Claim C4 counterexample.  The claim quantifies over every query whose
tokens contain a catalog entry's `source_path`; when the entry's
`file_name` is also a token, the `continue` at line 290 of the source skips
the existence check, so with the path missing on disk no `MissingSourceFile`
text is returned and SQL is still submitted (with the path token corrupted
by the file-name substring replacement). -/
theorem c4_path_counterexample :
    ("/data/a.csv" ∈ pySplit "SELECT * FROM a.csv JOIN /data/a.csv") ∧
    query_files (some [("a.csv", FileEntry.mk "/data/a.csv" "_a_csv")]) (fun _ => false)
        "SELECT * FROM a.csv JOIN /data/a.csv"
      = PyResult.ok (QueryOutcome.executed "SELECT * FROM _a_csv JOIN /data/_a_csv") := by
  decide

/-- Claim C4 as amended: the path clause holds for entries whose file name
is not itself a token of the query.  First part: when some entry's path is
a token, its name is not, and the path does not exist, the run ends in the
`MissingSourceFile` early return and no SQL is submitted.  Second part: at
the step for such an entry whose path exists, all textual occurrences of
the path in the query as rewritten so far are replaced with the table
identifier. -/
theorem c4_path_amended :
    (∀ (catalog : List (String × FileEntry)) (fs : String → Bool) (q n : String) (e : FileEntry),
        (n, e) ∈ catalog → e.path ∈ pySplit q → n ∉ pySplit q → fs e.path = false →
        resultIsMissing (query_files (some catalog) fs q) = true) ∧
    (∀ (fs : String → Bool) (words0 : List String) (rest : List (String × FileEntry))
        (q n : String) (e : FileEntry),
        n ∉ words0 → e.path ∈ words0 → fs e.path = true →
        rewriteLoop fs words0 ((n, e) :: rest) q
          = rewriteLoop fs words0 rest (pyReplace q e.path e.table_name)) := by
  constructor
  · intro catalog fs q n e hm hp hn hf
    have h := rewriteLoop_missing fs (pySplit q) catalog q ⟨n, e, hm, hp, hn, hf⟩
    simpa [query_files, resultIsMissing] using h
  · intro fs words0 rest q n e h1 h2 h3
    simp [rewriteLoop, h1, h2, h3]

/-- Witness for the amended C4 at concrete catalogs and queries. -/
theorem c4_path_witness :
    (("a.csv", FileEntry.mk "/gone/a.csv" "_a_csv")
        ∈ [("a.csv", FileEntry.mk "/gone/a.csv" "_a_csv")]) ∧
    ("/gone/a.csv" ∈ pySplit "SELECT * FROM /gone/a.csv") ∧
    ("a.csv" ∉ pySplit "SELECT * FROM /gone/a.csv") ∧
    resultIsMissing (query_files (some [("a.csv", FileEntry.mk "/gone/a.csv" "_a_csv")])
        (fun _ => false) "SELECT * FROM /gone/a.csv") = true ∧
    rewriteLoop (fun _ => true) (pySplit "SELECT * FROM /p/b.csv")
        [("b.csv", FileEntry.mk "/p/b.csv" "_b_csv")] "SELECT * FROM /p/b.csv"
      = rewriteLoop (fun _ => true) (pySplit "SELECT * FROM /p/b.csv") []
          (pyReplace "SELECT * FROM /p/b.csv" "/p/b.csv" "_b_csv") :=
  ⟨by decide, by decide, by decide,
   c4_path_amended.1 [("a.csv", FileEntry.mk "/gone/a.csv" "_a_csv")] (fun _ => false)
     "SELECT * FROM /gone/a.csv" "a.csv" (FileEntry.mk "/gone/a.csv" "_a_csv")
     (by decide) (by decide) (by decide) rfl,
   c4_path_amended.2 (fun _ => true) (pySplit "SELECT * FROM /p/b.csv") []
     "SELECT * FROM /p/b.csv" "b.csv" (FileEntry.mk "/p/b.csv" "_b_csv")
     (by decide) (by decide) rfl⟩

/-- Claim C6 counterexample.  Two concrete inputs refute the claim as
stated: the tag `Int` is outside the claimed literal set yet the source
accepts it (it matches case-insensitively via `dtype.lower()`, line 210)
and proceeds to read the file; and for a file absent from the catalog with
the bad tag `uuid`, the source returns the not-found error of line 202,
not an unsupported-type error. -/
theorem c6_unsupported_type_cex :
    ("Int" ∉ supportedTags) ∧
    load_override_schema (some [("a.csv", FileEntry.mk "/d/a.csv" "_a_csv")]) none
        (fun _ _ => ReadResult.ok "DESC") (FileSchemaOverride.mk "a.csv" [("c", "Int")])
      = PyResult.ok { output := losSuccessText "a.csv" "DESC"
                      reads := ["/d/a.csv"], regs := ["_a_csv"]
                      cacheDisk := some [("a.csv", "DESC")] } ∧
    ("uuid" ∉ supportedTags) ∧
    load_override_schema (some [("b.csv", FileEntry.mk "/d/b.csv" "_b_csv")]) none
        (fun _ _ => ReadResult.ok "DESC") (FileSchemaOverride.mk "missing.csv" [("c", "uuid")])
      = PyResult.ok { output := "Error: File missing.csv not found in loaded data files."
                      reads := [], regs := [], cacheDisk := none } :=
  ⟨by decide, by decide, by decide, by decide⟩

/-- Claim C6 as amended: for a request whose file name is present in the
loaded catalog and containing at least one column whose lowercased type
tag is outside the supported set, the operation returns the
unsupported-type error naming the first such column and its tag, reads no
file, registers no table and leaves the schema cache file unchanged. -/
theorem c6_unsupported_type_amended
    (data_files : List (String × FileEntry)) (diskCache : Option (List (String × String)))
    (reader : List (String × PlDtype) → String → ReadResult) (req : FileSchemaOverride)
    (e : FileEntry) (col tag : String)
    (hfile : dictGet req.file_name data_files = some e)
    (hbad : firstUnsupportedTag req.schema_override_input = some (col, tag)) :
    pyLower tag ∉ supportedTags ∧
    load_override_schema (some data_files) diskCache reader req
      = PyResult.ok { output := "Error: Unsupported data type " ++ tag ++ " for column " ++ col ++ "."
                      reads := [], regs := [], cacheDisk := diskCache } := by
  constructor
  · exact parseDtype_none_not_mem tag (firstUnsupportedTag_parse _ col tag hbad)
  · simp only [load_override_schema, hfile, buildOverride_first _ col tag hbad]

/-- Witness for the amended C6 at a concrete request with tag uuid. -/
theorem c6_unsupported_type_witness :
    dictGet "a.csv" [("a.csv", FileEntry.mk "/d/a.csv" "_a_csv")]
        = some (FileEntry.mk "/d/a.csv" "_a_csv") ∧
    firstUnsupportedTag [("c", "uuid")] = some ("c", "uuid") ∧
    (pyLower "uuid" ∉ supportedTags ∧
      load_override_schema (some [("a.csv", FileEntry.mk "/d/a.csv" "_a_csv")]) none
          (fun _ _ => ReadResult.ok "DESC") (FileSchemaOverride.mk "a.csv" [("c", "uuid")])
        = PyResult.ok
            { output := "Error: Unsupported data type " ++ "uuid" ++ " for column " ++ "c" ++ "."
              reads := [], regs := [], cacheDisk := none }) :=
  ⟨by decide, by decide,
   c6_unsupported_type_amended [("a.csv", FileEntry.mk "/d/a.csv" "_a_csv")] none
     (fun _ _ => ReadResult.ok "DESC") (FileSchemaOverride.mk "a.csv" [("c", "uuid")])
     (FileEntry.mk "/d/a.csv" "_a_csv") "c" "uuid" (by decide) (by decide)⟩

/-- Claim C7 (code bug).  The claim says the first `list_file_schema` call
persists a cache entry whether introspection succeeds or raises, so the
reader runs at most once per file across calls.  In the source, a raising
reader jumps over the `json.dump` at line 156, so a single-file failing
call persists nothing: the chained second call (run on the cache file
state left by the first) invokes the reader for the same file again. -/
theorem c7_failure_not_persisted :
    (list_file_schema (some [("bad.csv", FileEntry.mk "/d/bad.csv" "_bad_csv")])
        (fun _ => ReadResult.err "boom") (fun _ => none) none ["bad.csv"]).bind
      (fun r1 =>
        (list_file_schema (some [("bad.csv", FileEntry.mk "/d/bad.csv" "_bad_csv")])
            (fun _ => ReadResult.err "boom") (fun _ => none) r1.2.disk ["bad.csv"]).map
          (fun r2 => (r1.2.disk, r1.2.reads, r2.2.reads)))
      = PyResult.ok (none, ["/d/bad.csv"], ["/d/bad.csv"]) := by decide

/-- Claim C8 (code bug).  The claim says an unsupported-format error is
recorded under the requested file's name so the returned text reports it.
Line 138 of the source instead writes under the literal key `"file"`, so
for a catalogued `a.paraquet` (catalogued because of the line 62 filter,
but matching no reader branch) the returned text is empty and the error
sits under the key `"file"`. -/
theorem c8_unsupported_format_key :
    (list_file_schema (some [("a.paraquet", FileEntry.mk "/d/a.paraquet" "_a_paraquet")])
        (fun _ => ReadResult.err "boom") (fun _ => none) none ["a.paraquet"]).map
      (fun r => (r.1, dictGet "a.paraquet" r.2.dict, dictGet "file" r.2.dict, r.2.reads))
      = PyResult.ok ("", none, some "Unsupported file format for a.paraquet.\n", []) := by
  decide

/-- Claim C10 counterexample.  A file with a persisted cache entry but
absent from the catalog does not get its cached description returned: the
not-found branch at lines 118-119 overwrites the cached entry and returns
the not-found text (the reader and the session are indeed untouched). -/
theorem c10_cache_hit_cex :
    dictGet "gone.csv" [("gone.csv", "CACHED")] = some "CACHED" ∧
    (list_file_schema (some [("other.csv", FileEntry.mk "/d/other.csv" "_other_csv")])
        (fun _ => ReadResult.err "boom") (fun _ => none) (some [("gone.csv", "CACHED")])
        ["gone.csv"]).map (fun r => (r.1, r.2.reads, r.2.regs))
      = PyResult.ok ("File gone.csv not found.\n", [], []) := by decide

/-- Claim C10 as amended: for a file present in the catalog and already in
the persisted schema cache, `list_file_schema` invokes no reader, registers
nothing, leaves the in-memory dict equal to the loaded cache and returns
the cached description verbatim. -/
theorem c10_cache_hit_amended (catalog : List (String × FileEntry))
    (reader : String → ReadResult) (preview : String → Option String)
    (cache : List (String × String)) (f : String) (e : FileEntry) (d : String)
    (hcat : dictGet f catalog = some e) (hcache : dictGet f cache = some d) :
    list_file_schema (some catalog) reader preview (some cache) [f]
      = PyResult.ok (d, { dict := cache, disk := some cache, reads := [], regs := [] }) := by
  simp [list_file_schema, lfsStep, lfsOutput, hcat, hcache, pyJoin]

/-- Witness for the amended C10 at a concrete catalog and cache. -/
theorem c10_cache_hit_witness :
    dictGet "a.csv" [("a.csv", FileEntry.mk "/d/a.csv" "_a_csv")]
        = some (FileEntry.mk "/d/a.csv" "_a_csv") ∧
    dictGet "a.csv" [("a.csv", "CACHED")] = some "CACHED" ∧
    list_file_schema (some [("a.csv", FileEntry.mk "/d/a.csv" "_a_csv")])
        (fun _ => ReadResult.err "boom") (fun _ => none) (some [("a.csv", "CACHED")]) ["a.csv"]
      = PyResult.ok ("CACHED", { dict := [("a.csv", "CACHED")]
                                 disk := some [("a.csv", "CACHED")]
                                 reads := [], regs := [] }) :=
  ⟨by decide, by decide,
   c10_cache_hit_amended [("a.csv", FileEntry.mk "/d/a.csv" "_a_csv")]
     (fun _ => ReadResult.err "boom") (fun _ => none) [("a.csv", "CACHED")] "a.csv"
     (FileEntry.mk "/d/a.csv" "_a_csv") "CACHED" (by decide) (by decide)⟩
